import Mathlib

/-!
Verification of the `bag_analog_ec` layout-generator repository.

The development shallowly embeds the arithmetic and control flow of the
three source modules the claims are about:

* `analog_ec/layout/clk/driver.py` — `ClkInvAmp.draw_layout` placement
  arithmetic and the (incomplete) `ClkAmpReset.draw_layout`;
* `analog_ec/layout/dac/rladder/core.py` — `ResLadderDAC.draw_layout`;
* `analog_ec/layout/passives/capacitor/momcap.py` — `MOMCapCore.draw_layout`.

Python integers are modelled as `Int`.  Every floor division `//` in the
modelled code has the positive literal divisor `2`; for a positive divisor
Python floor division agrees with Lean `Int` division `/` (Euclidean
division rounds toward negative infinity when the divisor is positive), so
`x / 2` is the exact model of the Python expression `x // 2`.

Floating-point layout-unit quantities (`grid.resolution`,
`grid.layout_unit`) only ever enter the modelled computations through
multiplications, so they are modelled exactly as rationals.

Host-framework calls (`new_template`, `add_instance`, routing-grid
queries, ...) are opaque to this repository; they are modelled as
abstract inputs (for pure queries) or as uninterpretable events (for the
module-level execution traces).
-/

namespace BagAnalogEC

/-- A bounding box in resolution units, mirroring the four coordinate
arguments of the `bag` `BBox(left, bottom, right, top, resolution,
unit_mode=True)` constructor as used in `driver.py`. -/
structure BBoxU where
  left : Int
  bottom : Int
  right : Int
  top : Int
  deriving Repr, DecidableEq

/-- The quantities computed by `ClkInvAmp.draw_layout`
(`analog_ec/layout/clk/driver.py`, lines 82-116) from the sub-master
bounding boxes: the capacitor-height parameter handed to the `MOMCapCore`
sub-master, the overall size bounding box, and every placement
coordinate. -/
structure ClkInvAmpPlacement where
  hAtot : Int
  capHeight : ℚ
  hTot : Int
  wAtot : Int
  yCapn : Int
  yCapp : Int
  yAmpn : Int
  yAmpp : Int
  yRes : Int
  xAmp : Int
  xRes : Int
  sizeBox : BBoxU
  deriving Repr, DecidableEq

/-- Embedding of the placement arithmetic of `ClkInvAmp.draw_layout`
(`driver.py` lines 82-116).  Inputs are the width and height, in
resolution units, of the resistor, amplifier and capacitor sub-master
bounding boxes, plus the grid resolution.  In the source, `cap_height`
(line 92) is computed before the capacitor master exists, from
`h_atot = h_res + 2 * h_amp` only; the definition reflects this:
`capHeight` does not depend on `wCap`/`hCap`. -/
def clkInvAmpPlacement (wRes hRes wAmp hAmp wCap hCap : Int) (resolution : ℚ) :
    ClkInvAmpPlacement :=
  -- line 87: h_atot = h_res + 2 * h_amp
  let hAtot := hRes + 2 * hAmp
  -- line 92: cap_params['cap_height'] = h_atot // 2 * self.grid.resolution
  let capHeight : ℚ := ((hAtot / 2 : Int) : ℚ) * resolution
  -- line 99: h_tot = max(h_atot, 2 * h_cap)
  let hTot := max hAtot (2 * hCap)
  -- line 100: w_atot = max(w_res, w_amp)
  let wAtot := max wRes wAmp
  -- lines 102-108
  let yCapn := hTot / 2 - hCap
  let yCapp := yCapn + 2 * hCap
  let yAmpn := (hTot - hRes) / 2 - hAmp
  let yAmpp := (hTot + hRes) / 2 + hAmp
  let yRes := (hTot - hRes) / 2
  let xAmp := wCap + (wAtot - wAmp) / 2
  let xRes := wCap + (wAtot - wRes) / 2
  -- lines 110-111: set_size_from_bound_box(top_layer, BBox(0, 0, w_atot + w_cap, h_tot, ...))
  let sizeBox : BBoxU := ⟨0, 0, wAtot + wCap, hTot⟩
  { hAtot := hAtot, capHeight := capHeight, hTot := hTot, wAtot := wAtot,
    yCapn := yCapn, yCapp := yCapp, yAmpn := yAmpn, yAmpp := yAmpp,
    yRes := yRes, xAmp := xAmp, xRes := xRes, sizeBox := sizeBox }

/-- C4: `ClkInvAmp.draw_layout` sets its size from the bounding box
`BBox(0, 0, max(w_res, w_amp) + w_cap, max(h_res + 2*h_amp, 2*h_cap))`,
where the widths and heights are those of the resistor, amplifier and
capacitor sub-master bounding boxes in resolution units. -/
theorem clkInvAmp_size_bbox (wRes hRes wAmp hAmp wCap hCap : Int) (resolution : ℚ) :
    (clkInvAmpPlacement wRes hRes wAmp hAmp wCap hCap resolution).sizeBox =
      ⟨0, 0, max wRes wAmp + wCap, max (hRes + 2 * hAmp) (2 * hCap)⟩ := by
  rfl

/-- C6: `ClkInvAmp.draw_layout` builds its `MOMCapCore` sub-master with
`cap_height` equal to `((h_res + 2*h_amp) // 2) * grid_resolution`. -/
theorem clkInvAmp_cap_height (wRes hRes wAmp hAmp wCap hCap : Int) (resolution : ℚ) :
    (clkInvAmpPlacement wRes hRes wAmp hAmp wCap hCap resolution).capHeight =
      (((hRes + 2 * hAmp) / 2 : Int) : ℚ) * resolution := by
  rfl

/-- C5: in `ClkInvAmp.draw_layout` the amplifiers exactly abut the
resistor block (`y_ampn + h_amp = y_res` and `y_ampp - h_amp = y_res + h_res`),
the two capacitors satisfy `y_capp = y_capn + 2*h_cap`, and every
placement y-coordinate is nonnegative whenever the sub-master heights
are. -/
theorem clkInvAmp_placement (wRes hRes wAmp hAmp wCap hCap : Int) (resolution : ℚ)
    (h1 : 0 ≤ hRes) (h2 : 0 ≤ hAmp) (h3 : 0 ≤ hCap) :
    (clkInvAmpPlacement wRes hRes wAmp hAmp wCap hCap resolution).yAmpn + hAmp =
        (clkInvAmpPlacement wRes hRes wAmp hAmp wCap hCap resolution).yRes ∧
    (clkInvAmpPlacement wRes hRes wAmp hAmp wCap hCap resolution).yAmpp - hAmp =
        (clkInvAmpPlacement wRes hRes wAmp hAmp wCap hCap resolution).yRes + hRes ∧
    (clkInvAmpPlacement wRes hRes wAmp hAmp wCap hCap resolution).yCapp =
        (clkInvAmpPlacement wRes hRes wAmp hAmp wCap hCap resolution).yCapn + 2 * hCap ∧
    0 ≤ (clkInvAmpPlacement wRes hRes wAmp hAmp wCap hCap resolution).yCapn ∧
    0 ≤ (clkInvAmpPlacement wRes hRes wAmp hAmp wCap hCap resolution).yCapp ∧
    0 ≤ (clkInvAmpPlacement wRes hRes wAmp hAmp wCap hCap resolution).yAmpn ∧
    0 ≤ (clkInvAmpPlacement wRes hRes wAmp hAmp wCap hCap resolution).yAmpp ∧
    0 ≤ (clkInvAmpPlacement wRes hRes wAmp hAmp wCap hCap resolution).yRes := by
  refine ⟨?_, ?_, ?_, ?_, ?_, ?_, ?_, ?_⟩ <;> simp only [clkInvAmpPlacement] <;> omega

/-- Concrete instantiation of `clkInvAmp_placement` at
`w_res = 10, h_res = 21, w_amp = 14, h_amp = 6, w_cap = 8, h_cap = 40`. -/
theorem clkInvAmp_placement_witness :
    (clkInvAmpPlacement 10 21 14 6 8 40 1).yAmpn + 6 =
        (clkInvAmpPlacement 10 21 14 6 8 40 1).yRes ∧
    (clkInvAmpPlacement 10 21 14 6 8 40 1).yAmpp - 6 =
        (clkInvAmpPlacement 10 21 14 6 8 40 1).yRes + 21 ∧
    (clkInvAmpPlacement 10 21 14 6 8 40 1).yCapp =
        (clkInvAmpPlacement 10 21 14 6 8 40 1).yCapn + 2 * 40 ∧
    0 ≤ (clkInvAmpPlacement 10 21 14 6 8 40 1).yCapn ∧
    0 ≤ (clkInvAmpPlacement 10 21 14 6 8 40 1).yCapp ∧
    0 ≤ (clkInvAmpPlacement 10 21 14 6 8 40 1).yAmpn ∧
    0 ≤ (clkInvAmpPlacement 10 21 14 6 8 40 1).yAmpp ∧
    0 ≤ (clkInvAmpPlacement 10 21 14 6 8 40 1).yRes :=
  clkInvAmp_placement 10 21 14 6 8 40 1 (by decide) (by decide) (by decide)

/-- The routing-grid and technology queries used by
`MOMCapCore.draw_layout`.  These are host-framework services; each field
abstracts one query, with the same arguments as in the source.  Track
indices and coordinates are rationals (the framework allows half-integer
track indices); unit-mode lengths are integers. -/
structure MomGrid where
  resolution : ℚ
  layoutUnit : ℚ
  getTrackWidth : Int → Int → Int
  getMinTrackWidth : Int → Int → Int
  getMinLength : Int → Int → Int
  getViaExtensionTop : Int → Int → Int → Int
  coordToNearestTrack : Int → ℚ → Bool → ℚ

/-- The `port_idx` parameter of `MOMCapCore`: `None`, a single index, or a
(minus, plus) pair whose components may each be `None`
(`momcap.py`, lines 133-142). -/
inductive PortIdx where
  | noIdx : PortIdx
  | intIdx (i : ℚ) : PortIdx
  | pairIdx (minusIdx plusIdx : Option ℚ) : PortIdx
  deriving Repr, DecidableEq

/-- A track identifier as built by `TrackID(layer, index, width=w)`. -/
structure TrackIdM where
  layer : Int
  baseIndex : ℚ
  width : Int
  deriving Repr, DecidableEq

/-- Direction in which a port wire of `MOMCapCore` is extended: `down`
for the wire drawn below `warr0.lower`, `up` for the wire drawn above
`warr1.upper` (`momcap.py`, lines 159-166). -/
inductive PortDir where
  | down : PortDir
  | up : PortDir
  deriving Repr, DecidableEq

/-- The schematic parameters assembled at the end of
`MOMCapCore.draw_layout` (`momcap.py`, lines 173-177): the dictionary
`dict(w=res_w, l=res_l, layer=port_layer)`. -/
structure MomSchParams where
  w : ℚ
  l : ℚ
  layer : Int
  deriving Repr, DecidableEq

/-- The outputs of `MOMCapCore.draw_layout` that the claims are about. -/
structure MomCapResult where
  portLayer : Int
  topW : Int
  portLen : Int
  idxDefault : ℚ
  plusIdx : ℚ
  minusIdx : ℚ
  tid0 : TrackIdM
  tid1 : TrackIdM
  warr0IsCp : Bool
  pins : List (String × PortDir)
  schParams : MomSchParams
  deriving Repr, DecidableEq

/-- Embedding of `MOMCapCore.draw_layout`
(`analog_ec/layout/passives/capacitor/momcap.py`, lines 77-177), at the
granularity the claims need.  `cpIdx` and `cnIdx` are the top-layer
track base indices of the two cap ports returned by `add_mom_cap`
(line 129-131), and `cpMiddle` is the middle coordinate of the `cp`
wire.  Geometry that only feeds back into the host framework (the
bounding box, the drawn wire coordinates) is not needed by any claim and
is not recorded, but every recorded field is computed exactly as in the
source. -/
def momCapCore (g : MomGrid) (capTopLayer portWidth : Int) (portIdx : PortIdx)
    (cpIdx cnIdx cpMiddle : ℚ) : MomCapResult :=
  -- line 94: port_layer = cap_top_layer + 1
  let portLayer := capTopLayer + 1
  -- line 95: top_w = grid.get_track_width(port_layer, port_width, unit_mode=True)
  let topW := g.getTrackWidth portLayer portWidth
  -- line 96: cap_port_width = grid.get_min_track_width(cap_top_layer, top_w=top_w, ...)
  let capPortWidth := g.getMinTrackWidth capTopLayer topW
  -- line 102: bot_w = grid.get_track_width(cap_top_layer, cap_port_width, ...)
  let botW := g.getTrackWidth capTopLayer capPortWidth
  -- line 105: min_len = grid.get_min_length(port_layer, port_width, unit_mode=True)
  let minLen := g.getMinLength portLayer portWidth
  -- lines 106-107: via_ext = grid.get_via_extensions(...)[1]
  let viaExt := g.getViaExtensionTop capTopLayer capPortWidth portWidth
  -- line 108: res_len = top_w
  let resLen0 := topW
  -- line 109: port_len = max(top_w, min_len - 2 * via_ext - bot_w - res_len)
  let portLen := max topW (minLen - 2 * viaExt - botW - resLen0)
  -- line 132: idx_default = grid.coord_to_nearest_track(port_layer, cp.middle, half_track=True)
  let idxDefault := g.coordToNearestTrack portLayer cpMiddle true
  -- lines 133-142
  let pm : ℚ × ℚ :=
    match portIdx with
    | .noIdx => (idxDefault, idxDefault)
    | .intIdx i => (i, i)
    | .pairIdx mi pi =>
      let minusIdx := match mi with | none => idxDefault | some v => v
      let plusIdx := match pi with | none => idxDefault | some v => v
      (plusIdx, minusIdx)
  let plusIdx := pm.1
  let minusIdx := pm.2
  -- lines 143-144
  let plusTid : TrackIdM := ⟨portLayer, plusIdx, portWidth⟩
  let minusTid : TrackIdM := ⟨portLayer, minusIdx, portWidth⟩
  -- lines 146-153
  let sel : String × String × TrackIdM × TrackIdM × Bool :=
    if cpIdx < cnIdx then ("plus", "minus", plusTid, minusTid, true)
    else ("minus", "plus", minusTid, plusTid, false)
  -- line 157: res_len *= res  (after this point res_len is in layout units)
  let resLen : ℚ := (resLen0 : ℚ) * g.resolution
  -- lines 159-169: warr0 is extended downward below its lower edge, warr1
  -- upward above its upper edge, and each is exported under its name
  let pins : List (String × PortDir) := [(sel.1, .down), (sel.2.1, .up)]
  -- lines 171-177
  let resW : ℚ := (topW : ℚ) * g.resolution * g.layoutUnit
  let resL : ℚ := resLen * g.layoutUnit
  { portLayer := portLayer, topW := topW, portLen := portLen, idxDefault := idxDefault,
    plusIdx := plusIdx, minusIdx := minusIdx,
    tid0 := sel.2.2.1, tid1 := sel.2.2.2.1, warr0IsCp := sel.2.2.2.2,
    pins := pins,
    schParams := { w := resW, l := resL, layer := portLayer } }

/-- C7: `MOMCapCore.draw_layout` exports exactly one pin named `plus` and
one named `minus`; the downward-extended port (`warr0`, below the cap)
is named `plus` exactly when the `cp` top-plate track base index is
strictly smaller than that of `cn`, and `minus` otherwise, the other
name going to the upward-extended port. -/
theorem momCapCore_pins (g : MomGrid) (capTopLayer portWidth : Int) (portIdx : PortIdx)
    (cpIdx cnIdx cpMiddle : ℚ) :
    ((momCapCore g capTopLayer portWidth portIdx cpIdx cnIdx cpMiddle).pins.countP
        (fun pr => pr.1 = "plus") = 1) ∧
    ((momCapCore g capTopLayer portWidth portIdx cpIdx cnIdx cpMiddle).pins.countP
        (fun pr => pr.1 = "minus") = 1) ∧
    ((momCapCore g capTopLayer portWidth portIdx cpIdx cnIdx cpMiddle).pins =
      if cpIdx < cnIdx then [("plus", PortDir.down), ("minus", PortDir.up)]
      else [("minus", PortDir.down), ("plus", PortDir.up)]) := by
  simp only [momCapCore]
  by_cases h : cpIdx < cnIdx <;> simp [h, List.countP, List.countP.go]

/-- C8: resolution of the `port_idx` parameter in
`MOMCapCore.draw_layout`.  With `port_idx = None`, both ports land on the
default track, the track on the port layer nearest to `cp.middle` with
half tracks allowed; with an int, both ports use that index; with a
(minus, plus) pair, each `None` component is replaced by the same default. -/
theorem momCapCore_port_idx (g : MomGrid) (capTopLayer portWidth : Int)
    (cpIdx cnIdx cpMiddle : ℚ) :
    (∀ res0 : MomCapResult,
      res0 = momCapCore g capTopLayer portWidth .noIdx cpIdx cnIdx cpMiddle →
      res0.plusIdx = g.coordToNearestTrack (capTopLayer + 1) cpMiddle true ∧
      res0.minusIdx = g.coordToNearestTrack (capTopLayer + 1) cpMiddle true) ∧
    (∀ i : ℚ,
      (momCapCore g capTopLayer portWidth (.intIdx i) cpIdx cnIdx cpMiddle).plusIdx = i ∧
      (momCapCore g capTopLayer portWidth (.intIdx i) cpIdx cnIdx cpMiddle).minusIdx = i) ∧
    (∀ mi pi : Option ℚ,
      (momCapCore g capTopLayer portWidth (.pairIdx mi pi) cpIdx cnIdx cpMiddle).minusIdx =
        (match mi with
          | none => g.coordToNearestTrack (capTopLayer + 1) cpMiddle true
          | some v => v) ∧
      (momCapCore g capTopLayer portWidth (.pairIdx mi pi) cpIdx cnIdx cpMiddle).plusIdx =
        (match pi with
          | none => g.coordToNearestTrack (capTopLayer + 1) cpMiddle true
          | some v => v)) := by
  refine ⟨?_, ?_, ?_⟩
  · rintro res0 rfl
    exact ⟨rfl, rfl⟩
  · intro i
    exact ⟨rfl, rfl⟩
  · intro mi pi
    cases mi <;> cases pi <;> exact ⟨rfl, rfl⟩

/-- Concrete instantiation of `momCapCore_port_idx`, discharging the
quantified-hypothesis form at a concrete grid and parameters. -/
theorem momCapCore_port_idx_witness :
    let g : MomGrid :=
      { resolution := 1/1000, layoutUnit := 1/1000000,
        getTrackWidth := fun _ _ => 32, getMinTrackWidth := fun _ _ => 2,
        getMinLength := fun _ _ => 100, getViaExtensionTop := fun _ _ _ => 5,
        coordToNearestTrack := fun _ c _ => c }
    (momCapCore g 4 1 .noIdx 3 7 (5/2)).plusIdx = 5/2 ∧
    (momCapCore g 4 1 (.intIdx 6) 3 7 (5/2)).minusIdx = 6 ∧
    (momCapCore g 4 1 (.pairIdx none (some 9)) 3 7 (5/2)).minusIdx = 5/2 ∧
    (momCapCore g 4 1 (.pairIdx none (some 9)) 3 7 (5/2)).plusIdx = 9 := by
  intro g
  refine ⟨((momCapCore_port_idx g 4 1 3 7 (5/2)).1 _ rfl).1, ?_, ?_, ?_⟩
  · exact ((momCapCore_port_idx g 4 1 3 7 (5/2)).2.1 6).2
  · exact ((momCapCore_port_idx g 4 1 3 7 (5/2)).2.2 none (some 9)).1
  · exact ((momCapCore_port_idx g 4 1 3 7 (5/2)).2.2 none (some 9)).2

/-- C9: after `MOMCapCore.draw_layout`, `sch_params` is exactly the
dictionary with keys `w`, `l`, `layer`, where `layer = cap_top_layer + 1`
and `w = l = top_w * resolution * layout_unit` — the schematic metal
resistor is always square, because `res_len` is initialized to `top_w`. -/
theorem momCapCore_sch_params (g : MomGrid) (capTopLayer portWidth : Int)
    (portIdx : PortIdx) (cpIdx cnIdx cpMiddle : ℚ) :
    (momCapCore g capTopLayer portWidth portIdx cpIdx cnIdx cpMiddle).schParams =
      { w := (g.getTrackWidth (capTopLayer + 1) portWidth : ℚ) * g.resolution * g.layoutUnit,
        l := (g.getTrackWidth (capTopLayer + 1) portWidth : ℚ) * g.resolution * g.layoutUnit,
        layer := capTopLayer + 1 } ∧
    (momCapCore g capTopLayer portWidth portIdx cpIdx cnIdx cpMiddle).schParams.w =
      (momCapCore g capTopLayer portWidth portIdx cpIdx cnIdx cpMiddle).schParams.l := by
  constructor
  · rfl
  · rfl

/-! ## Execution traces of `ClkAmpReset.draw_layout` and `ResLadderDAC.draw_layout`

Both methods are straight-line Python whose only failure points relevant
to the claims are lookups of module-global names.  They are embedded as
event sequences in exact program evaluation order; the events are

* `paramRead k` — a `self.params[k]` read (assumed to succeed: the claims
  quantify over parameter dictionaries that hold the keys);
* `evalGlobal nm` — evaluation of a name resolved in the module global /
  builtin scope (any name not assigned anywhere in the function body);
  this raises `NameError` exactly when `nm` is not bound there;
* `fwCall tag` — a host-framework or sub-instance method call, opaque
  and assumed to succeed;
* `addPin nm` — a `self.add_pin(nm, ...)` call.

Running a trace executes events in order and stops at the first
`evalGlobal` of an unbound name, yielding the executed prefix and the
outcome. -/

/-- One atomic step of a `draw_layout` body, at the granularity described
above. -/
inductive PyEvent where
  | paramRead (key : String) : PyEvent
  | evalGlobal (nm : String) : PyEvent
  | fwCall (tag : String) : PyEvent
  | addPin (nm : String) : PyEvent
  deriving Repr, DecidableEq

/-- How a `draw_layout` call ends: normal return, `NameError` on an
unbound global name, or an explicit `ValueError`. -/
inductive PyOutcome where
  | normal : PyOutcome
  | nameError (nm : String) : PyOutcome
  | valueError (msg : String) : PyOutcome
  deriving Repr, DecidableEq

/-- Execute events in order; the first `evalGlobal` whose name is not in
`bound` raises `NameError` and aborts.  Returns the fully executed prefix
and the outcome. -/
def runEvents (bound : List String) : List PyEvent → List PyEvent × PyOutcome
  | [] => ([], .normal)
  | .evalGlobal nm :: rest =>
    if bound.contains nm then
      ((.evalGlobal nm) :: (runEvents bound rest).1, (runEvents bound rest).2)
    else ([], .nameError nm)
  | .paramRead k :: rest =>
    ((.paramRead k) :: (runEvents bound rest).1, (runEvents bound rest).2)
  | .fwCall t :: rest =>
    ((.fwCall t) :: (runEvents bound rest).1, (runEvents bound rest).2)
  | .addPin nm :: rest =>
    ((.addPin nm) :: (runEvents bound rest).1, (runEvents bound rest).2)

/-- The global names referenced by the executed events of a trace. -/
def globalsOf (evs : List PyEvent) : List String :=
  evs.filterMap fun e =>
    match e with
    | .evalGlobal nm => some nm
    | _ => none

/-- Every global name whose evaluation is attempted when running `evs`
under `bound`: the names successfully looked up, plus the name whose
failed lookup raised `NameError`, if any. -/
def evaluatedGlobals (bound : List String) (evs : List PyEvent) : List String :=
  globalsOf (runEvents bound evs).1 ++
    (match (runEvents bound evs).2 with
     | .nameError nm => [nm]
     | _ => [])

/-- The pins added by the executed events of a trace. -/
def pinsAdded (evs : List PyEvent) : List String :=
  evs.filterMap fun e =>
    match e with
    | .addPin nm => some nm
    | _ => none

/-- The bound global scope of `analog_ec/layout/clk/driver.py`: its
imports (lines 5-15), the two classes it defines, and the Python builtins
the module uses. -/
def clkDriverGlobals : List String :=
  ["TYPE_CHECKING", "Dict", "Set", "Any", "BBox", "TrackID", "TemplateBase",
   "MOMCapCore", "Flop", "ResFeedbackCore", "InvAmp", "ClkInvAmp", "ClkAmpReset",
   "max", "min", "print", "round", "dict", "isinstance", "int", "range", "len"]

/-- The bound global scope of `analog_ec/layout/dac/rladder/core.py`: its
imports (lines 6-11), the class it defines, and the Python builtins the
module uses.  Note that `RLadderMuxArray`, `col_nbits`, `row_nbits`,
`config_file`, `l`, `w`, `sub_lch`, `sub_w`, `sub_type`, `threshold`,
`ndum`, `res_type` and `num_out` are referenced by `draw_layout` but are
neither imported nor assigned anywhere. -/
def rladderGlobals : List String :=
  ["Dict", "Set", "Any", "Union", "TemplateDB", "TemplateBase", "BBox",
   "ResLadderTop", "ResLadderDAC",
   "max", "min", "print", "round", "dict", "isinstance", "int", "range", "len"]

/-- The event sequence of `ClkAmpReset.draw_layout` (`driver.py` lines
204-463), in program evaluation order.  The body is straight-line (no
branch or loop), so the sequence is a fixed list.  Names such as
`ClkAmp`, `ClkNorGate`, `nor_nyblk`, `clkrx_y`, `blk_w`, `blk_h`,
`clkrx_x` and `nor_nxblk` are never assigned in the function, so each is
a module-global lookup. -/
def clkAmpResetEventsA : List PyEvent :=
  [ -- lines 205-207
   .paramRead "clkrx_params", .paramRead "nor_params", .paramRead "io_width_ntr",
   -- line 209: new_template(params=clkrx_params, temp_cls=ClkAmp)
   .evalGlobal "ClkAmp", .fwCall "new_template",
   -- line 210
   .evalGlobal "ClkNorGate", .fwCall "new_template",
   -- line 211
   .fwCall "add_instance",
   -- line 215: total_height_nor = 2 * nor_nyblk
   .evalGlobal "nor_nyblk",
   -- line 217: total_height = max(total_height_nor, clkrx_y)
   .evalGlobal "max", .evalGlobal "clkrx_y",
   -- line 219: print(nor_master.size, total_height, blk_w, blk_h)
   .evalGlobal "print", .evalGlobal "blk_w", .evalGlobal "blk_h",
   -- line 223: x_nor = clkrx_x + flop_x
   .evalGlobal "clkrx_x",
   -- lines 225-227
   .fwCall "add_instance", .fwCall "add_instance",
   -- line 228
   .evalGlobal "dict", .evalGlobal "Flop", .fwCall "new_template",
   -- lines 230-231
   .fwCall "get_block_size",
   -- line 232: x_flops = round((x_nor + (nor_nxblk - 10.44) / 2) / blk_w_flop) * blk_w_flop
   .evalGlobal "round", .evalGlobal "nor_nxblk",
   -- line 233
   .evalGlobal "round",
   -- line 235
   .fwCall "add_instance"]

/-- Continuation of the `ClkAmpReset.draw_layout` event sequence:
`driver.py` lines 239-299. -/
def clkAmpResetEventsB : List PyEvent :=
  -- lines 239-248: port-pin queries on the two nor instances and clkrx
  List.replicate 8 (.fwCall "get_all_port_pins") ++
  [ -- line 250
   .fwCall "connect_wires",
   -- line 252
   .addPin "VSS"] ++
  -- lines 254-263: port-pin queries
  List.replicate 8 (.fwCall "get_all_port_pins") ++
  [ -- lines 265-266
   .fwCall "connect_to_tracks", .fwCall "connect_to_tracks",
   -- lines 268-270
   .fwCall "connect_wires", .fwCall "connect_wires"] ++
  -- lines 272-299: flop port-pin queries
  List.replicate 20 (.fwCall "get_all_port_pins")

/-- Continuation of the `ClkAmpReset.draw_layout` event sequence:
`driver.py` lines 304-463. -/
def clkAmpResetEventsC : List PyEvent :=
  [ -- lines 304-305
   .fwCall "coord_to_nearest_track", .evalGlobal "TrackID",
   -- lines 308-309
   .fwCall "coord_to_nearest_track", .evalGlobal "TrackID",
   -- lines 311-312
   .evalGlobal "TrackID", .fwCall "coord_to_nearest_track",
   -- lines 314-315
   .fwCall "connect_to_tracks", .fwCall "connect_to_tracks",
   -- line 317
   .fwCall "connect_wires",
   -- line 319
   .fwCall "connect_to_tracks",
   -- line 321
   .fwCall "connect_to_tracks",
   -- lines 323-324
   .fwCall "connect_to_tracks", .fwCall "connect_to_tracks",
   -- lines 326-327
   .fwCall "connect_to_tracks", .fwCall "connect_to_tracks",
   -- lines 331-337
   .fwCall "add_wires", .fwCall "add_wires",
   -- lines 339-341
   .evalGlobal "TrackID", .fwCall "coord_to_nearest_track",
   -- line 343
   .fwCall "connect_to_tracks",
   -- lines 345-351
   .fwCall "add_wires", .fwCall "add_wires",
   -- lines 353-355
   .evalGlobal "TrackID", .fwCall "coord_to_nearest_track",
   -- lines 357-358
   .fwCall "add_wires",
   -- line 360
   .fwCall "connect_to_tracks",
   -- lines 362-363
   .fwCall "get_all_port_pins", .fwCall "get_all_port_pins",
   -- lines 365-366
   .fwCall "add_wires",
   -- line 367
   .fwCall "connect_to_tracks",
   -- line 369
   .fwCall "connect_wires",
   -- lines 380-383
   .fwCall "get_bbox_array", .fwCall "get_bbox_array", .fwCall "get_bbox_array",
   -- lines 388-389
   .evalGlobal "TrackID", .fwCall "coord_to_nearest_track",
   .evalGlobal "TrackID", .fwCall "coord_to_nearest_track",
   -- lines 394-398
   .fwCall "add_wires", .fwCall "add_wires",
   -- lines 403-406
   .fwCall "add_wires", .fwCall "add_wires",
   -- line 408
   .fwCall "connect_to_tracks",
   -- line 410
   .fwCall "connect_to_tracks",
   -- line 412
   .fwCall "connect_wires",
   -- line 414
   .fwCall "connect_to_tracks",
   -- line 416
   .fwCall "connect_to_tracks",
   -- line 418
   .fwCall "connect_wires",
   -- lines 421-422
   .evalGlobal "TrackID", .fwCall "coord_to_nearest_track",
   -- lines 432-433
   .fwCall "connect_wires", .fwCall "connect_wires",
   -- line 434
   .addPin "VDD",
   -- lines 439-441
   .evalGlobal "TrackID", .fwCall "coord_to_nearest_track",
   -- lines 443-453
   .fwCall "connect_to_tracks", .fwCall "connect_to_tracks", .fwCall "connect_wires",
   .fwCall "connect_to_tracks", .fwCall "connect_to_tracks", .fwCall "connect_wires",
   -- lines 455-463
   .addPin "VSS", .addPin "VDD", .addPin "CLKP", .addPin "CLKN",
   .addPin "CLKP_PAD", .addPin "CLKN_PAD", .addPin "RST"]

/-- The full event sequence of `ClkAmpReset.draw_layout` (`driver.py`
lines 204-463), in program evaluation order. -/
def clkAmpResetEvents : List PyEvent :=
  clkAmpResetEventsA ++ clkAmpResetEventsB ++ clkAmpResetEventsC

/-- Running `ClkAmpReset.draw_layout`: executed prefix and outcome. -/
def clkAmpResetDraw : List PyEvent × PyOutcome :=
  runEvents clkDriverGlobals clkAmpResetEvents

/-- The event sequence of `ResLadderDAC.draw_layout`
(`analog_ec/layout/dac/rladder/core.py` lines 68-165), after the `nout`
validity check.  The list depends on the parameters only through the
branch at line 77 and the loop bounds; `vrefNeg` stands for the
runtime-valued branch condition `vref_left < 0` of line 125. -/
def rladderEventsAfterCheck (nout : Int) (nin0 nin1 : Nat) (vrefNeg : Bool) :
    List PyEvent :=
  let numMuxLeft : Int := nout / 2
  let numMuxRight : Int := nout - numMuxLeft
  let nbitsTot : Nat := nin0 + nin1
  -- line 76: mux_params = dict(col_nbits=col_nbits, row_nbits=row_nbits, config_file=config_file)
  [.evalGlobal "dict", .evalGlobal "col_nbits", .evalGlobal "row_nbits",
   .evalGlobal "config_file"] ++
  -- lines 77-81
  (if 0 < numMuxLeft then [.evalGlobal "RLadderMuxArray", .fwCall "new_template"]
   else []) ++
  -- lines 83-84
  [.evalGlobal "RLadderMuxArray", .fwCall "new_template",
   -- lines 86-87
   .evalGlobal "dict", .evalGlobal "l", .evalGlobal "w", .evalGlobal "sub_lch",
   .evalGlobal "sub_w", .evalGlobal "sub_type", .evalGlobal "threshold",
   .evalGlobal "ndum", .evalGlobal "res_type",
   -- line 88
   .fwCall "new_template",
   -- line 91
   .fwCall "get_port", .fwCall "get_pins",
   -- line 93
   .fwCall "get_track_pitch",
   -- line 95
   .fwCall "get_port", .fwCall "get_pins",
   -- lines 96-97
   .evalGlobal "int", .evalGlobal "round", .evalGlobal "max",
   .evalGlobal "int", .evalGlobal "round", .evalGlobal "max"] ++
  -- lines 101-119
  (if 0 < numMuxLeft then
    [.fwCall "get_size_dimension", .fwCall "add_instance",
     .fwCall "get_all_port_pins", .fwCall "get_all_port_pins",
     .evalGlobal "range"] ++
    (List.range numMuxLeft.toNat).flatMap (fun _ =>
      [.fwCall "get_port", .fwCall "reexport", .evalGlobal "range"] ++
      (List.range nbitsTot).flatMap (fun _ => [.fwCall "get_port", .fwCall "reexport"])) ++
    [.evalGlobal "int", .evalGlobal "round", .fwCall "get_port", .fwCall "get_pins"]
   else [.evalGlobal "BBox", .fwCall "get_invalid_bbox"]) ++
  [ -- line 122
   .fwCall "add_instance",
   -- lines 123-124
   .fwCall "get_all_port_pins", .fwCall "get_all_port_pins"] ++
  -- lines 125-126
  (if vrefNeg then
    [.evalGlobal "int", .evalGlobal "round", .fwCall "get_port", .fwCall "get_pins"]
   else []) ++
  [ -- line 128
   .fwCall "get_size_dimension",
   -- line 131
   .fwCall "add_instance",
   -- line 132
   .fwCall "get_size_dimension",
   -- lines 136-137
   .fwCall "get_all_port_pins", .fwCall "get_all_port_pins",
   -- line 138
   .evalGlobal "range"] ++
  -- lines 139-145
  (List.range numMuxRight.toNat).flatMap (fun _ =>
    [.evalGlobal "num_out", .fwCall "get_port", .fwCall "reexport",
     .evalGlobal "range"] ++
    (List.range nbitsTot).flatMap (fun _ => [.fwCall "get_port", .fwCall "reexport"])) ++
  [ -- line 146
   .evalGlobal "int", .evalGlobal "round", .fwCall "get_port", .fwCall "get_pins",
   -- line 148
   .evalGlobal "range"] ++
  -- lines 149-152
  (List.range (2 ^ nbitsTot)).flatMap (fun _ =>
    [.fwCall "get_port", .fwCall "get_pins", .fwCall "add_wires"]) ++
  [ -- line 155
   .evalGlobal "max",
   -- line 157
   .fwCall "get_size_tuple",
   -- lines 162-163
   .fwCall "do_power_fill",
   -- lines 164-165
   .addPin "VDD", .addPin "VSS"]

/-- The parameter reads of `ResLadderDAC.draw_layout` (lines 58-63),
executed before the `nout` check. -/
def rladderParamReads : List PyEvent :=
  [.paramRead "nin0", .paramRead "nin1", .paramRead "res_params",
   .paramRead "mux_params", .paramRead "nout", .paramRead "show_pins"]

/-- Running `ResLadderDAC.draw_layout` (lines 56-165): read the six
parameters, raise `ValueError` if `nout <= 0`, otherwise run the body
trace. -/
def rladderDraw (nout : Int) (nin0 nin1 : Nat) (vrefNeg : Bool) :
    List PyEvent × PyOutcome :=
  if nout ≤ 0 then (rladderParamReads, .valueError "nout must be positive.")
  else
    (rladderParamReads ++ (runEvents rladderGlobals (rladderEventsAfterCheck nout nin0 nin1 vrefNeg)).1,
     (runEvents rladderGlobals (rladderEventsAfterCheck nout nin0 nin1 vrefNeg)).2)

/-- Running the post-check body of `ResLadderDAC.draw_layout` always
stops at the second event: `dict` resolves, `col_nbits` does not. -/
theorem runEvents_rladder_body (t : List PyEvent) :
    runEvents rladderGlobals (.evalGlobal "dict" :: .evalGlobal "col_nbits" :: t) =
      ([.evalGlobal "dict"], .nameError "col_nbits") := by
  have h1 : "dict" ∈ rladderGlobals := by decide
  have h2 : "col_nbits" ∉ rladderGlobals := by decide
  simp [runEvents, h1, h2]

/-- C3: `ResLadderDAC.draw_layout` raises `ValueError` with message
`nout must be positive.` exactly when `nout <= 0`, and on that error the
executed trace is just the six parameter reads — no sub-template, no
instance, no wire and no pin — so the layout state is unchanged. -/
theorem resLadderDAC_nout_check (nout : Int) (nin0 nin1 : Nat) (vrefNeg : Bool) :
    ((rladderDraw nout nin0 nin1 vrefNeg).2 = PyOutcome.valueError "nout must be positive."
        ↔ nout ≤ 0) ∧
    (nout ≤ 0 → (rladderDraw nout nin0 nin1 vrefNeg).1 = rladderParamReads ∧
      pinsAdded (rladderDraw nout nin0 nin1 vrefNeg).1 = []) := by
  by_cases h : nout ≤ 0
  · refine ⟨by simp [rladderDraw, h], fun _ => ⟨by simp [rladderDraw, h], ?_⟩⟩
    simp [rladderDraw, h, pinsAdded, rladderParamReads]
  · obtain ⟨t, ht⟩ : ∃ t, rladderEventsAfterCheck nout nin0 nin1 vrefNeg =
        .evalGlobal "dict" :: .evalGlobal "col_nbits" :: t := ⟨_, rfl⟩
    have hb := runEvents_rladder_body t
    refine ⟨?_, fun hc => absurd hc h⟩
    simp [rladderDraw, h, ht, hb]

/-- Concrete instantiation of `resLadderDAC_nout_check` at `nout = 0`:
the error is raised and the trace is only the parameter reads. -/
theorem resLadderDAC_nout_check_witness :
    (rladderDraw 0 2 3 false).2 = PyOutcome.valueError "nout must be positive." ∧
    (rladderDraw 0 2 3 false).1 = rladderParamReads :=
  ⟨(resLadderDAC_nout_check 0 2 3 false).1.mpr (by decide),
   ((resLadderDAC_nout_check 0 2 3 false).2 (by decide)).1⟩

/-- C1 fails as stated: at the concrete parameters `nout = 1, nin0 = 2,
nin1 = 3` the execution of `ResLadderDAC.draw_layout` proceeds past the
`nout` validity check (`0 < 1`) and evaluates the unbound name
`col_nbits` (line 76), raising `NameError` — so the reference to
`col_nbits` does not lie in a dead branch. -/
theorem undefined_names_counterexample :
    0 < (1 : Int) ∧
    (rladderDraw 1 2 3 false).2 = PyOutcome.nameError "col_nbits" ∧
    "col_nbits" ∈ evaluatedGlobals rladderGlobals (rladderEventsAfterCheck 1 2 3 false) := by
  refine ⟨by decide, by decide, by decide⟩

/-- C1, amended: the unbound names `nor_nxblk`, `clkrx_x` and `num_out`
are indeed never evaluated — every execution of
`ClkAmpReset.draw_layout` raises `NameError` on `ClkAmp` first, and
every execution of `ResLadderDAC.draw_layout` past the `nout` check
raises `NameError` on `col_nbits` first — but `col_nbits` itself is
evaluated (and found unbound) on every execution past the `nout`
check. -/
theorem undefined_names_evaluation (nout : Int) (nin0 nin1 : Nat) (vrefNeg : Bool)
    (h : 0 < nout) :
    (rladderDraw nout nin0 nin1 vrefNeg).2 = PyOutcome.nameError "col_nbits" ∧
    evaluatedGlobals rladderGlobals (rladderEventsAfterCheck nout nin0 nin1 vrefNeg) =
      ["dict", "col_nbits"] ∧
    "num_out" ∉ evaluatedGlobals rladderGlobals (rladderEventsAfterCheck nout nin0 nin1 vrefNeg) ∧
    clkAmpResetDraw.2 = PyOutcome.nameError "ClkAmp" ∧
    "clkrx_x" ∉ evaluatedGlobals clkDriverGlobals clkAmpResetEvents ∧
    "nor_nxblk" ∉ evaluatedGlobals clkDriverGlobals clkAmpResetEvents := by
  obtain ⟨t, ht⟩ : ∃ t, rladderEventsAfterCheck nout nin0 nin1 vrefNeg =
      .evalGlobal "dict" :: .evalGlobal "col_nbits" :: t := ⟨_, rfl⟩
  have hb := runEvents_rladder_body t
  have hn : ¬ nout ≤ 0 := by omega
  refine ⟨?_, ?_, ?_, by decide, by decide, by decide⟩
  · simp [rladderDraw, hn, ht, hb]
  · simp [evaluatedGlobals, ht, hb, globalsOf]
  · simp [evaluatedGlobals, ht, hb, globalsOf]

/-- Concrete instantiation of `undefined_names_evaluation` at
`nout = 2, nin0 = 1, nin1 = 2`. -/
theorem undefined_names_evaluation_witness :
    (rladderDraw 2 1 2 false).2 = PyOutcome.nameError "col_nbits" ∧
    evaluatedGlobals rladderGlobals (rladderEventsAfterCheck 2 1 2 false) =
      ["dict", "col_nbits"] ∧
    "num_out" ∉ evaluatedGlobals rladderGlobals (rladderEventsAfterCheck 2 1 2 false) ∧
    clkAmpResetDraw.2 = PyOutcome.nameError "ClkAmp" ∧
    "clkrx_x" ∉ evaluatedGlobals clkDriverGlobals clkAmpResetEvents ∧
    "nor_nxblk" ∉ evaluatedGlobals clkDriverGlobals clkAmpResetEvents :=
  undefined_names_evaluation 2 1 2 false (by decide)

/-- C2 fails as stated: `ClkAmpReset.draw_layout` never terminates
normally and adds none of its pins — execution aborts on the unbound
class name `ClkAmp` at line 209, whatever the parameter dictionary. -/
theorem clkAmpReset_draw_counterexample :
    clkAmpResetDraw.2 ≠ PyOutcome.normal ∧ pinsAdded clkAmpResetDraw.1 = [] := by
  refine ⟨by decide, by decide⟩

/-- C2, amended: for every parameter dictionary (with the referenced keys
present), `ClkAmpReset.draw_layout` raises `NameError` on `ClkAmp`
having executed only its three parameter reads; it adds no pin.  The
`add_pin` calls for `VSS`, `VDD`, `CLKP`, `CLKN`, `CLKP_PAD`, `CLKN_PAD`
and `RST` occur only later in the unreachable remainder of the body. -/
theorem clkAmpReset_draw_raises :
    clkAmpResetDraw.2 = PyOutcome.nameError "ClkAmp" ∧
    clkAmpResetDraw.1 =
      [.paramRead "clkrx_params", .paramRead "nor_params", .paramRead "io_width_ntr"] ∧
    pinsAdded clkAmpResetDraw.1 = [] ∧
    pinsAdded clkAmpResetEvents =
      ["VSS", "VDD", "VSS", "VDD", "CLKP", "CLKN", "CLKP_PAD", "CLKN_PAD", "RST"] := by
  refine ⟨by decide, by decide, by decide, by decide⟩

/-! ## Mutation model for the parameter dictionaries (C10)

Python dictionaries are mutable heap objects; a variable holds a
reference.  A dict is modelled as an ordered association list, the heap
as a list of dicts indexed by allocation order, `d.copy()` as allocation
of a fresh cell with the same contents, and `d[k] = v` as an in-place
update of the referenced cell. -/

/-- Python dict assignment `d[k] = v`: replace the value of an existing
key in place, else append the new binding. -/
def setKey {α : Type} : List (String × α) → String → α → List (String × α)
  | [], k, v => [(k, v)]
  | (k0, v0) :: rest, k, v =>
    if k0 = k then (k, v) :: rest else (k0, v0) :: setKey rest k v

/-- The membership test `k in d`. -/
def hasKey {α : Type} (d : List (String × α)) (k : String) : Bool :=
  d.any fun kv => kv.1 == k

/-- A heap of dictionaries; a Python variable holding a dict is an index
into `cells`. -/
structure DictHeap (α : Type) where
  cells : List (List (String × α))
  deriving Repr, DecidableEq

/-- Dereference: the dict a reference points to. -/
def DictHeap.read {α : Type} (h : DictHeap α) (r : Nat) : List (String × α) :=
  h.cells.getD r []

/-- Allocation (`d.copy()`, `dict(...)`): a fresh cell holding `d`,
returning the new heap and the fresh reference. -/
def DictHeap.alloc {α : Type} (h : DictHeap α) (d : List (String × α)) :
    DictHeap α × Nat :=
  (⟨h.cells ++ [d]⟩, h.cells.length)

/-- In-place update `d[k] = v` through reference `r`. -/
def DictHeap.writeKey {α : Type} (h : DictHeap α) (r : Nat) (k : String) (v : α) :
    DictHeap α :=
  ⟨h.cells.set r (setKey (h.read r) k v)⟩

theorem DictHeap.read_alloc {α : Type} (h : DictHeap α) (d : List (String × α))
    (r : Nat) (hr : r < h.cells.length) : ((h.alloc d).1).read r = h.read r :=
  List.getD_append _ _ _ _ hr

theorem DictHeap.read_writeKey_ne {α : Type} (h : DictHeap α) (r r2 : Nat)
    (k : String) (v : α) (hne : r2 ≠ r) : (h.writeKey r2 k v).read r = h.read r := by
  simp only [DictHeap.writeKey, DictHeap.read, List.getD_eq_getD_get?,
    List.get?_eq_getElem?]
  rw [List.getElem?_set_ne hne]

theorem DictHeap.length_alloc {α : Type} (h : DictHeap α) (d : List (String × α)) :
    ((h.alloc d).1).cells.length = h.cells.length + 1 := by
  simp [DictHeap.alloc]

theorem DictHeap.length_writeKey {α : Type} (h : DictHeap α) (r : Nat) (k : String)
    (v : α) : (h.writeKey r k v).cells.length = h.cells.length := by
  simp [DictHeap.writeKey]

/-- The dictionary operations of `ClkInvAmp.draw_layout`
(`driver.py` lines 66-93) on the three caller-supplied parameter
dictionaries: each is copied (lines 67-69), then only the copies are
written (lines 73, 77-78, 89-92).  `rRes`, `rAmp`, `rCap` are the
references held in `self.params`; the written values are opaque. -/
def clkInvAmpDictOps {α : Type} (h : DictHeap α) (rRes rAmp rCap : Nat)
    (falseV topLayerV subNameV capHeightV : α) : DictHeap α :=
  -- line 67: res_params = self.params['res_params'].copy()
  let a1 := h.alloc (h.read rRes)
  -- line 68: amp_params = self.params['amp_params'].copy()
  let a2 := a1.1.alloc (a1.1.read rAmp)
  -- line 69: cap_params = self.params['cap_params'].copy()
  let a3 := a2.1.alloc (a2.1.read rCap)
  -- line 73: res_params['show_pins'] = False
  let h4 := a3.1.writeKey a1.2 "show_pins" falseV
  -- line 77: amp_params['top_layer'] = top_layer
  let h5 := h4.writeKey a2.2 "top_layer" topLayerV
  -- line 78: amp_params['show_pins'] = False
  let h6 := h5.writeKey a2.2 "show_pins" falseV
  -- line 89: cap_params['cap_top_layer'] = top_layer
  let h7 := h6.writeKey a3.2 "cap_top_layer" topLayerV
  -- line 90: cap_params['sub_name'] = ''
  let h8 := h7.writeKey a3.2 "sub_name" subNameV
  -- line 91: cap_params['show_pins'] = False
  let h9 := h8.writeKey a3.2 "show_pins" falseV
  -- line 92: cap_params['cap_height'] = ...
  h9.writeKey a3.2 "cap_height" capHeightV

/-- The `cap_options` handling of `MOMCapCore.draw_layout`
(`momcap.py` lines 97-101): `None` allocates a fresh dict; a dict that
holds `port_widths` is copied and the copy overridden; any other dict is
used as-is (and only read afterwards). -/
def momCapOptionsOp {α : Type} (h : DictHeap α) (capOptions : Option Nat)
    (pwVal : α) : DictHeap α × Nat :=
  match capOptions with
  | none =>
    -- line 98: cap_options = dict(port_widths={cap_top_layer: cap_port_width})
    h.alloc [("port_widths", pwVal)]
  | some r =>
    if hasKey (h.read r) "port_widths" then
      -- lines 100-101: cap_options = cap_options.copy();
      --                cap_options['port_widths'] = {cap_top_layer: cap_port_width}
      let a := h.alloc (h.read r)
      (a.1.writeKey a.2 "port_widths" pwVal, a.2)
    else (h, r)

/-- C10: neither `ClkInvAmp.draw_layout` nor `MOMCapCore.draw_layout`
mutates a caller-supplied parameter dictionary: after the dictionary
operations of either method, every pre-existing heap cell — in
particular every dictionary held in `self.params` — is element-wise
unchanged. -/
theorem params_not_mutated {α : Type} (h hm : DictHeap α) (rRes rAmp rCap : Nat)
    (falseV topLayerV subNameV capHeightV : α) (capOptions : Option Nat)
    (pwVal : α) (r rm : Nat) (hr : r < h.cells.length)
    (hrm : rm < hm.cells.length) :
    (clkInvAmpDictOps h rRes rAmp rCap falseV topLayerV subNameV capHeightV).read r =
      h.read r ∧
    (momCapOptionsOp hm capOptions pwVal).1.read rm = hm.read rm := by
  constructor
  · simp only [clkInvAmpDictOps]
    rw [DictHeap.read_writeKey_ne _ _ _ _ _ (by simp [DictHeap.alloc]; omega),
      DictHeap.read_writeKey_ne _ _ _ _ _ (by simp [DictHeap.alloc]; omega),
      DictHeap.read_writeKey_ne _ _ _ _ _ (by simp [DictHeap.alloc]; omega),
      DictHeap.read_writeKey_ne _ _ _ _ _ (by simp [DictHeap.alloc]; omega),
      DictHeap.read_writeKey_ne _ _ _ _ _ (by simp [DictHeap.alloc]; omega),
      DictHeap.read_writeKey_ne _ _ _ _ _ (by simp [DictHeap.alloc]; omega),
      DictHeap.read_writeKey_ne _ _ _ _ _ (by simp [DictHeap.alloc]; omega),
      DictHeap.read_alloc _ _ _ (by simp [DictHeap.alloc]; omega),
      DictHeap.read_alloc _ _ _ (by simp [DictHeap.alloc]; omega),
      DictHeap.read_alloc _ _ _ hr]
  · match capOptions with
    | none => exact DictHeap.read_alloc _ _ _ hrm
    | some r2 =>
      simp only [momCapOptionsOp]
      by_cases hk : hasKey (hm.read r2) "port_widths"
      · simp only [hk, if_true]
        rw [DictHeap.read_writeKey_ne _ _ _ _ _ (by simp [DictHeap.alloc]; omega),
          DictHeap.read_alloc _ _ _ hrm]
      · simp [hk]

/-- Concrete instantiation of `params_not_mutated` on a two-cell heap. -/
theorem params_not_mutated_witness :
    (clkInvAmpDictOps (α := Nat) ⟨[[("x", 7)], [("y", 8)]]⟩ 0 1 1 0 5 6 9).read 0 =
      DictHeap.read (α := Nat) ⟨[[("x", 7)], [("y", 8)]]⟩ 0 ∧
    (momCapOptionsOp (α := Nat) ⟨[[("port_widths", 3)]]⟩ (some 0) 4).1.read 0 =
      DictHeap.read (α := Nat) ⟨[[("port_widths", 3)]]⟩ 0 :=
  params_not_mutated ⟨[[("x", 7)], [("y", 8)]]⟩ ⟨[[("port_widths", 3)]]⟩ 0 1 1 0 5 6 9
    (some 0) 4 0 0 (by decide) (by decide)

end BagAnalogEC
